import Mathlib

set_option maxRecDepth 40000

/-!
Verification of the venue-scoring service (src/main.py, src/mar.py) against its
natural-language specification.

The embedding models pandas float columns as exact rationals extended with the
IEEE special values (`PFloat`), pandas timestamps as rational day counts since
the epoch (event dates, parsed from date strings, are whole days, modelled as
`Int`), and Python strings as Lean strings with ASCII-faithful re-implementations
of the Python primitives (`strip`, `upper`, `lower`, `zfill`, `title`,
`isdigit`), since the repository data is ASCII.
-/

/-! ## PFloat: pandas/numpy float semantics over exact rationals

A pandas numeric column value: a finite rational, +inf, -inf, or NaN.
Finite values are exact rationals (decimal literals such as 2.4 or 0.3 are
modelled by the exact rationals 12/5 and 3/10; binary-float rounding error is
not modelled). Division by zero follows IEEE/numpy semantics as produced by
pandas column arithmetic: x/0 is +-inf for x nonzero and NaN for 0/0. -/
inductive PFloat where
  | fin (q : ℚ)
  | pinf
  | ninf
  | nan
deriving DecidableEq, Inhabited

def PFloat.isNaN : PFloat → Bool
  | .nan => true
  | _ => false

def PFloat.isFinite : PFloat → Bool
  | .fin _ => true
  | _ => false

/-- IEEE addition on pandas column values. -/
def PFloat.add : PFloat → PFloat → PFloat
  | .nan, _ => .nan
  | _, .nan => .nan
  | .fin a, .fin b => .fin (a + b)
  | .fin _, .pinf => .pinf
  | .fin _, .ninf => .ninf
  | .pinf, .fin _ => .pinf
  | .ninf, .fin _ => .ninf
  | .pinf, .pinf => .pinf
  | .ninf, .ninf => .ninf
  | .pinf, .ninf => .nan
  | .ninf, .pinf => .nan

/-- IEEE multiplication on pandas column values. -/
def PFloat.mul : PFloat → PFloat → PFloat
  | .nan, _ => .nan
  | _, .nan => .nan
  | .fin a, .fin b => .fin (a * b)
  | .fin a, .pinf => if a = 0 then .nan else if 0 < a then .pinf else .ninf
  | .fin a, .ninf => if a = 0 then .nan else if 0 < a then .ninf else .pinf
  | .pinf, .fin b => if b = 0 then .nan else if 0 < b then .pinf else .ninf
  | .ninf, .fin b => if b = 0 then .nan else if 0 < b then .ninf else .pinf
  | .pinf, .pinf => .pinf
  | .pinf, .ninf => .ninf
  | .ninf, .pinf => .ninf
  | .ninf, .ninf => .pinf

/-- IEEE division on pandas column values; x/0 is a signed infinity for x
nonzero and NaN for 0/0, as numpy true division of column data produces. -/
def PFloat.div : PFloat → PFloat → PFloat
  | .nan, _ => .nan
  | _, .nan => .nan
  | .fin a, .fin b =>
      if b = 0 then (if a = 0 then .nan else if 0 < a then .pinf else .ninf)
      else .fin (a / b)
  | .fin _, .pinf => .fin 0
  | .fin _, .ninf => .fin 0
  | .pinf, .fin b => if 0 ≤ b then .pinf else .ninf
  | .ninf, .fin b => if 0 ≤ b then .ninf else .pinf
  | .pinf, .pinf => .nan
  | .pinf, .ninf => .nan
  | .ninf, .pinf => .nan
  | .ninf, .ninf => .nan

/-- IEEE strict ordering; every comparison with NaN is false. -/
def pfLt : PFloat → PFloat → Bool
  | .fin a, .fin b => a < b
  | .fin _, .pinf => true
  | .ninf, .fin _ => true
  | .ninf, .pinf => true
  | _, _ => false

/-- Python round-half-even of a rational to an integer, the semantics of
Python `round` (the binary-float representation error of the Python value is
not modelled; all concrete inputs used here are exactly representable
decisions away from the .5 ties). -/
def roundHalfEven (q : ℚ) : ℤ :=
  let f := ⌊q⌋
  if q - f < 1/2 then f
  else if (1:ℚ)/2 < q - f then f + 1
  else if f % 2 = 0 then f else f + 1

/-- Python `round(x, nd)` on a pandas value: decimal half-even rounding of
finite values; NaN and infinities are returned unchanged. -/
def pyRound (nd : ℕ) : PFloat → PFloat
  | .fin q => .fin ((roundHalfEven (q * (10:ℚ)^nd) : ℚ) / (10:ℚ)^nd)
  | x => x

/-- The pandas `Series.mean()` with the default `skipna=True`: NaN entries are
dropped; the mean of the remaining entries is their sum divided by their
count; if nothing remains the result is NaN. Infinities propagate. -/
def pmean (xs : List PFloat) : PFloat :=
  let ys := xs.filter (fun x => !x.isNaN)
  match ys with
  | [] => .nan
  | _ => (ys.foldl PFloat.add (.fin 0)).div (.fin (ys.length : ℚ))

/-- The pandas `Series.min()` with default `skipna=True`: minimum of the
non-NaN entries, NaN if none remain. -/
def pminSkipna (xs : List PFloat) : PFloat :=
  let ys := xs.filter (fun x => !x.isNaN)
  match ys with
  | [] => .nan
  | z :: zs => zs.foldl (fun m x => if pfLt x m then x else m) z

/-! ## ASCII re-implementations of the Python string primitives -/

def asciiLower (c : Char) : Char :=
  if 'A' ≤ c ∧ c ≤ 'Z' then Char.ofNat (c.toNat + 32) else c

def asciiUpper (c : Char) : Char :=
  if 'a' ≤ c ∧ c ≤ 'z' then Char.ofNat (c.toNat - 32) else c

/-- Python `str.lower()` (ASCII). -/
def pyLower (s : String) : String := ⟨s.data.map asciiLower⟩

/-- Python `str.upper()` (ASCII). -/
def pyUpper (s : String) : String := ⟨s.data.map asciiUpper⟩

def isSpaceChar (c : Char) : Bool := c = ' ' || c = '\t' || c = '\n' || c = '\r'

/-- Python `str.strip()` (ASCII whitespace). -/
def pyStrip (s : String) : String :=
  ⟨((s.data.dropWhile isSpaceChar).reverse.dropWhile isSpaceChar).reverse⟩

/-- Python `str.isdigit()` for ASCII strings: nonempty and all digits. -/
def pyIsdigit (s : String) : Bool := !s.data.isEmpty && s.data.all Char.isDigit

/-- Python `str.zfill(n)` for the unsigned strings it is applied to here:
left-pad with zeros to length `n`. -/
def pyZfill (n : ℕ) (s : String) : String :=
  if n ≤ s.data.length then s else ⟨List.replicate (n - s.data.length) '0' ++ s.data⟩

def pyTitleAux : Bool → List Char → List Char
  | _, [] => []
  | prev, c :: cs =>
    if c.isAlpha then (if prev then asciiLower c else asciiUpper c) :: pyTitleAux true cs
    else c :: pyTitleAux false cs

/-- Python `str.title()` (ASCII): uppercase each letter that follows a
non-letter, lowercase the other letters. -/
def pyTitle (s : String) : String := ⟨pyTitleAux false s.data⟩

/-- Code-point lexicographic comparison, the ordering Python `sorted` uses on
strings. -/
def charListLe : List Char → List Char → Bool
  | [], _ => true
  | _ :: _, [] => false
  | a :: as, b :: bs => if a < b then true else if b < a then false else charListLe as bs

def strLe (a b : String) : Bool := charListLe a.data b.data

/-! ## Stable sorting and first-occurrence deduplication

`isortB le` is a stable insertion sort: `x` is placed before the first
already-placed element `y` with `le x y` (the already-placed elements are the
ones that occur later in the input, because the sort folds from the right).
For a total preorder `le` this is extensionally the unique stable sort, hence
a faithful model of Python `sorted` and of the sorted iteration order of
pandas `groupby` keys. -/

def insertB {α : Type} (le : α → α → Bool) (x : α) : List α → List α
  | [] => [x]
  | y :: ys => if le x y then x :: y :: ys else y :: insertB le x ys

def isortB {α : Type} (le : α → α → Bool) : List α → List α
  | [] => []
  | x :: xs => insertB le x (isortB le xs)

/-- Python `sorted` on strings. -/
def sortStr (l : List String) : List String := isortB strLe l

def dedupAux {α : Type} [DecidableEq α] (seen : List α) : List α → List α
  | [] => []
  | x :: xs => if x ∈ seen then dedupAux seen xs else x :: dedupAux (x :: seen) xs

/-- First-occurrence deduplication: the model of `pandas.unique` and of the
membership content of a Python `set`. -/
def dedupF {α : Type} [DecidableEq α] (l : List α) : List α := dedupAux [] l

/-! ## difflib.SequenceMatcher and fuzzywuzzy token_set_ratio

`run_vor` expands the query city with `fuzzywuzzy.fuzz.token_set_ratio`.
For the short strings involved no autojunk applies, so
`SequenceMatcher.find_longest_match` returns the longest matching block,
ties resolved to the earliest start in the first string and then in the
second; `ratio` is 2M/T where M is the total size of the matching blocks of
the recursive block decomposition and T the total length. -/

/-- Length of the common prefix run of two character lists. -/
def runLen : List Char → List Char → ℕ
  | a :: as, b :: bs => if a = b then runLen as bs + 1 else 0
  | _, _ => 0

/-- The longest matching block (start in a, start in b, length), ties to the
earliest start in `a` and then in `b`: the no-junk semantics of
`SequenceMatcher.find_longest_match`. -/
def bestMatch (a b : List Char) : ℕ × ℕ × ℕ :=
  (List.range a.length).foldl (fun acc i =>
    (List.range b.length).foldl (fun acc2 j =>
      let k := runLen (a.drop i) (b.drop j)
      if acc2.2.2 < k then (i, j, k) else acc2) acc) (0, 0, 0)

/-- Total matched size over the recursive block decomposition of
`SequenceMatcher.get_matching_blocks`, written with explicit fuel (the
recursion depth is bounded by the total length, so the supplied fuel is
always sufficient). -/
def matchedTotalF : ℕ → List Char → List Char → ℕ
  | 0, _, _ => 0
  | fuel + 1, a, b =>
    let m := bestMatch a b
    if m.2.2 = 0 then 0
    else
      matchedTotalF fuel (a.take m.1) (b.take m.2.1) + m.2.2 +
        matchedTotalF fuel (a.drop (m.1 + m.2.2)) (b.drop (m.2.1 + m.2.2))

def matchedTotal (a b : List Char) : ℕ := matchedTotalF (a.length + b.length + 1) a b

/-- Python `int(round(num/den))` for nonnegative integers, half-to-even. -/
def pyRoundNat (num den : ℕ) : ℕ :=
  let q := num / den
  let r := num % den
  if 2 * r < den then q else if den < 2 * r then q + 1 else if q % 2 = 0 then q else q + 1

/-- `fuzz.ratio` of two already-processed strings:
`int(round(100 * SequenceMatcher.ratio))`; two empty strings have ratio 1.0
in difflib. -/
def fuzzSimple (a b : String) : ℕ :=
  let t := a.data.length + b.data.length
  if t = 0 then 100 else pyRoundNat (200 * matchedTotal a.data b.data) t

def wordChar (c : Char) : Bool := c.isAlphanum || c = '_'

/-- `fuzzywuzzy.utils.full_process`: non-word characters become spaces, then
lowercase, then strip (ASCII). -/
def fullProcess (s : String) : String :=
  pyStrip (pyLower ⟨s.data.map (fun c => if wordChar c then c else ' ')⟩)

def splitSpacesAux (acc : List Char) : List Char → List String
  | [] => if acc.isEmpty then [] else [⟨acc.reverse⟩]
  | c :: cs =>
    if c = ' ' then (if acc.isEmpty then splitSpacesAux [] cs else ⟨acc.reverse⟩ :: splitSpacesAux [] cs)
    else splitSpacesAux (c :: acc) cs

/-- Python `str.split()` on a space-separated string: tokens, empties dropped. -/
def splitSpaces (s : String) : List String := splitSpacesAux [] s.data

/-- `fuzz.token_set_ratio`: tokenize both processed strings into sets, build
the sorted intersection and the two sorted one-sided unions, and return the
maximum pairwise `fuzz.ratio` among them; returns 0 when either processed
string is empty. -/
def tokenSetScore (s1 s2 : String) : ℕ :=
  let p1 := fullProcess s1
  let p2 := fullProcess s2
  if p1.data.isEmpty || p2.data.isEmpty then 0
  else
    let t1 := dedupF (splitSpaces p1)
    let t2 := dedupF (splitSpaces p2)
    let sect := String.intercalate " " (sortStr (t1.filter (fun t => t2.contains t)))
    let c12 := pyStrip (sect ++ " " ++ String.intercalate " " (sortStr (t1.filter (fun t => !t2.contains t))))
    let c21 := pyStrip (sect ++ " " ++ String.intercalate " " (sortStr (t2.filter (fun t => !t1.contains t))))
    let s0 := pyStrip sect
    max (fuzzSimple s0 c12) (max (fuzzSimple s0 c21) (fuzzSimple c12 c21))

/-! ## Data model

One row of the loaded events table, with the columns `run_vor` reads.
`event_date` is the `pd.to_datetime` result as a day count since the epoch
(`none` is NaT, the `errors="coerce"` failure value). `latitude` and
`longitude` model optional coordinate columns of the CSV; no code in the
repository reads them. `venue_disclosure` and `image_allowed` are kept as
raw strings, as `is_true` receives them. -/
structure EventRow where
  venue : String
  city : String
  state : String
  topic : String
  zip_code : String
  event_date : Option ℤ
  event_time : String
  gross_registrants : PFloat
  attended_hh : PFloat
  registration_max : PFloat
  fb_cpr : PFloat
  venue_disclosure : String
  image_allowed : String
  latitude : Option ℚ
  longitude : Option ℚ
deriving DecidableEq, Inhabited

/-- The `/vor` request body (`VORRequest` in src/main.py). `miles` defaults
to 6.0. -/
structure VORRequest where
  topic : String
  city : String
  state : Option String
  miles : ℚ
deriving DecidableEq

/-- A Python exception raised inside the `try` block of `run_vor`: either a
FastAPI `HTTPException` or another exception (attribute/value errors). The
message text of non-HTTP exceptions is not load-bearing. -/
inductive PyExc where
  | httpExc (status : ℕ) (detail : String)
  | attrError (msg : String)
  | valueError (msg : String)
deriving DecidableEq

/-- The HTTP error response FastAPI renders from an uncaught `HTTPException`. -/
structure HttpError where
  status : ℕ
  detail : String
deriving DecidableEq

/-- Python `str(e)`: a Starlette `HTTPException` prints as
`"{status_code}: {detail}"`. -/
def excStr : PyExc → String
  | .httpExc s d => toString s ++ ": " ++ d
  | .attrError m => m
  | .valueError m => m

/-! ## The /vor pipeline (src/main.py) -/

/-- The topic dictionary (src/main.py lines 40-44); `TOPIC_MAP.get` semantics. -/
def TOPIC_MAP : String → Option String := fun k =>
  if k = "TIR" then some "taxes_in_retirement_567"
  else if k = "EP" then some "estate_planning_567"
  else if k = "SS" then some "social_security_567"
  else none

/-- `is_true` (line 52): `str(val).strip().upper() == "TRUE"`. -/
def is_true (val : String) : Bool := pyUpper (pyStrip val) == "TRUE"

/-- `get_similar_cities` (lines 55-62): the cities of the rows whose state
matches, deduplicated (`unique`), kept when their `token_set_ratio` similarity
to the normalized input city reaches the threshold 75, returned as a set
(modelled as a first-occurrence deduplicated list; only membership and the
sorted rendering are consumed downstream). -/
def get_similar_cities (df : List EventRow) (input_city state : String) : List String :=
  let normalized_city := pyLower (pyStrip input_city)
  let candidates := dedupF ((df.filter (fun r => pyUpper (pyStrip r.state) == state)).map (·.city))
  dedupF (candidates.filter (fun c => 75 ≤ tokenSetScore normalized_city (pyLower (pyStrip c))))

/-- The candidate-selection block of `run_vor` (lines 74-92): the ZIP branch
when the city field is a 5-digit number, otherwise fuzzy city matching within
the given state. Returns the filtered rows and the display city/state, or the
raised exception. -/
def vorSelect (df : List EventRow) (req : VORRequest) (topic : String) :
    Except PyExc (List EventRow × String × String) :=
  if pyIsdigit req.city && req.city.length == 5 then
    let zip_str := pyZfill 5 (pyStrip req.city)
    let filtered := df.filter (fun r => r.topic == topic && pyZfill 5 r.zip_code == zip_str)
    let display_city := match filtered with | r :: _ => r.city | [] => req.city
    let display_state := match filtered with | _ :: _ => (filtered.headD default).state | [] => ""
    .ok (filtered, display_city, display_state)
  else
    match req.state with
    | none => .error (.attrError "NoneType object has no attribute strip")
    | some st =>
      let city := pyStrip req.city
      let state := pyUpper (pyStrip st)
      let similar_cities := get_similar_cities df city state
      if similar_cities.isEmpty then .error (.httpExc 404 "No similar city matches found.")
      else
        let filtered := df.filter (fun r => r.topic == topic
          && (similar_cities.map (fun c => pyLower (pyStrip c))).contains (pyLower (pyStrip r.city))
          && pyUpper (pyStrip r.state) == state)
        let display_city := String.intercalate ", " (sortStr (dedupF (similar_cities.map pyTitle)))
        .ok (filtered, display_city, state)

/-- Derived column `attendance_rate` (line 99). -/
def attendance_rate (r : EventRow) : PFloat := r.attended_hh.div r.gross_registrants

/-- Derived column `fulfillment_pct` (line 100); 2.4 is the exact rational 12/5. -/
def fulfillment_pct (r : EventRow) : PFloat :=
  r.attended_hh.div (r.registration_max.div (.fin (12/5)))

/-- Derived column `cpa` (line 101). -/
def cpa (r : EventRow) : PFloat := r.fb_cpr.div (attendance_rate r)

/-- Derived column `score` before scaling (line 102); the weights 0.5, 0.3,
0.2 are the exact rationals 1/2, 3/10, 1/5. -/
def score_raw (r : EventRow) : PFloat :=
  ((((PFloat.fin 1).div (cpa r)).mul (.fin (1/2))).add
    ((fulfillment_pct r).mul (.fin (3/10)))).add
    ((attendance_rate r).mul (.fin (1/5)))

/-- The final `score` column after the `* 40` scaling (line 103). -/
def score_scaled (r : EventRow) : PFloat := (score_raw r).mul (.fin 40)

/-- `pandas.Timestamp.day_name()` from an epoch day count
(1970-01-01 was a Thursday). -/
def dayNames : List String :=
  ["Monday", "Tuesday", "Wednesday", "Thursday", "Friday", "Saturday", "Sunday"]

def dayName (d : ℤ) : String := dayNames.getD ((d + 3).emod 7).toNat ""

/-- The `event_day` column (line 31): day name of the event date, NaN for NaT. -/
def event_day (r : EventRow) : Option String := r.event_date.map dayName

/-- Ordering used to model `sort_values("event_date", ascending=False)`:
descending by date, NaT last; ties keep input order (pandas quicksort makes
no ordering promise on ties; the stable model is one of its admissible
outcomes and concrete inputs in this file are tie-free on dates). -/
def dateLeB (a b : EventRow) : Bool :=
  match a.event_date, b.event_date with
  | some x, some y => y ≤ x
  | some _, none => true
  | none, some _ => false
  | none, none => true

def sort_by_date_desc (g : List EventRow) : List EventRow := isortB dateLeB g

/-- Per-venue groups of `filtered.groupby("venue")` (line 108): rows with the
given venue, in input order. -/
def groupOf (filtered : List EventRow) (v : String) : List EventRow :=
  filtered.filter (fun r => r.venue == v)

/-- The venue keys of `filtered.groupby("venue")`, emitted in sorted order
(pandas `groupby` sorts group keys ascending). -/
def venue_names (filtered : List EventRow) : List String :=
  sortStr (dedupF (filtered.map (·.venue)))

/-- The day-name keys of `group.groupby("event_day")` (line 115): days that
occur in the group (NaT rows dropped), sorted ascending. -/
def day_keys (g : List EventRow) : List String :=
  sortStr (dedupF (g.filterMap event_day))

/-- The per-day value of the `best_day_scores` apply (lines 115-117):
`(mean attendance_rate + mean fulfillment_pct) / 2` over the day's rows. -/
def day_score (g : List EventRow) (d : String) : PFloat :=
  let rows := g.filter (fun r => event_day r == some d)
  ((pmean (rows.map attendance_rate)).add (pmean (rows.map fulfillment_pct))).div (.fin 2)

/-- `sort_values(ascending=False)` on a keyed series: descending by value with
NaN last (`na_position="last"`), ties modelled stably. -/
def sortByValDesc (l : List (String × PFloat)) : List (String × PFloat) :=
  isortB (fun a b => !(pfLt a.2 b.2)) (l.filter (fun p => !p.2.isNaN)) ++
    l.filter (fun p => p.2.isNaN)

/-- `best_days` (lines 115-118): the two highest-scoring day names, joined. -/
def best_days (g : List EventRow) : String :=
  String.intercalate ", "
    (((sortByValDesc ((day_keys g).map (fun d => (d, day_score g d)))).take 2).map (·.1))

/-- One row of the `time_scores` frame (lines 120-124): an event time with its
mean `fb_cpr`, mean `attendance_rate` and derived `cpa`. -/
structure TimeRow where
  time : String
  fb_cpr : PFloat
  attendance_rate : PFloat
  cpa : PFloat
deriving DecidableEq

def preferred_times : List String := ["11:00", "11:30", "18:00", "18:30"]

/-- `time_scores` (lines 120-124): group by `event_time` (keys ascending),
aggregate the two means, `dropna()`, then add the `cpa` column. -/
def time_rows (g : List EventRow) : List TimeRow :=
  (sortStr (dedupF (g.map (·.event_time)))).filterMap (fun t =>
    let rows := g.filter (fun r => r.event_time == t)
    let c := pmean (rows.map (·.fb_cpr))
    let a := pmean (rows.map attendance_rate)
    if c.isNaN || a.isNaN then none else some ⟨t, c, a, c.div a⟩)

/-- `best_preferred_cpa` (lines 126-127): minimum preferred-time `cpa`, or the
sentinel 9999 when no preferred time occurs. -/
def best_preferred_cpa (ts : List TimeRow) : PFloat :=
  match ts.filter (fun x => preferred_times.contains x.time) with
  | [] => .fin 9999
  | pref => pminSkipna (pref.map (·.cpa))

/-- `pandas.DataFrame.drop_duplicates()` keeps the first row of each distinct
value triple (the index does not participate). -/
def dedupTimeRowsAux (seen : List (PFloat × PFloat × PFloat)) : List TimeRow → List TimeRow
  | [] => []
  | x :: xs =>
    if (x.fb_cpr, x.attendance_rate, x.cpa) ∈ seen then dedupTimeRowsAux seen xs
    else x :: dedupTimeRowsAux ((x.fb_cpr, x.attendance_rate, x.cpa) :: seen) xs

/-- `good_times` (lines 129-135): preferred-time rows, plus non-preferred rows
with `cpa < 70`, plus non-preferred rows beating the best preferred `cpa`,
with duplicate value rows dropped. -/
def good_times (ts : List TimeRow) : List TimeRow :=
  let base := ts.filter (fun x => preferred_times.contains x.time)
  let extras := ts.filter (fun x => !preferred_times.contains x.time)
  dedupTimeRowsAux []
    (base ++ extras.filter (fun x => pfLt x.cpa (.fin 70)) ++
      extras.filter (fun x => pfLt x.cpa (best_preferred_cpa ts)))

/-- `best_times` (line 136): the sorted `good_times` labels joined, or the
fallback text when the join is empty. -/
def best_times (g : List EventRow) : String :=
  let j := String.intercalate ", " (sortStr ((good_times (time_rows g)).map (·.time)))
  if j = "" then "Not enough data" else j

/-- One entry of the `venues` list (lines 138-155). Rounded means keep their
numeric value (the `$`/`%` string decoration and the emoji prefixes of the
boolean markers are presentation; `used_recently` keeps the decisive text of
line 151). `most_recent` holds the date value that line 142 renders with
`strftime`. -/
structure VenueEntry where
  venue : String
  city : String
  state : String
  most_recent : Option ℤ
  num_events : ℕ
  avg_gross : PFloat
  avg_cpr : PFloat
  avg_cpa : PFloat
  attendance_rate_pct : PFloat
  fulfillment_pct_pct : PFloat
  image_allowed : Bool
  disclosure_needed : Bool
  used_recently : String
  best_days : String
  best_times : String
  best_line : String
  score : PFloat
deriving DecidableEq, Inhabited

/-- The body of the venue loop (lines 108-155) for one venue group. `today`
is `pd.Timestamp.today()` as a rational day count. -/
def buildEntry (today : ℚ) (display_city display_state : String) (v : String)
    (g : List EventRow) : VenueEntry :=
  let recent := (sort_by_date_desc g).headD default
  let usedR := match recent.event_date with
    | some d => decide (⌊today - (d : ℚ)⌋ < 60)
    | none => false
  { venue := v
    city := display_city
    state := display_state
    most_recent := recent.event_date
    num_events := g.length
    avg_gross := pyRound 1 (pmean (g.map (·.gross_registrants)))
    avg_cpr := pyRound 2 (pmean (g.map (·.fb_cpr)))
    avg_cpa := pyRound 2 (pmean (g.map cpa))
    attendance_rate_pct := pyRound 1 ((pmean (g.map attendance_rate)).mul (.fin 100))
    fulfillment_pct_pct := pyRound 1 ((pmean (g.map fulfillment_pct)).mul (.fin 100))
    image_allowed := is_true recent.image_allowed
    disclosure_needed := is_true recent.venue_disclosure
    used_recently := if usedR then "Used <60d" else "OK"
    best_days := best_days g
    best_times := best_times g
    best_line := best_times g ++ " on " ++ best_days g
    score := pyRound 2 (pmean (g.map score_scaled)) }

/-- `sorted(venues, key=lambda x: float(x["score"]), reverse=True)`
(line 157): stable descending sort by score. -/
def sort_desc_by_score (l : List VenueEntry) : List VenueEntry :=
  isortB (fun a b => !(pfLt a.score b.score)) l

/-- The structured content of the successful `run_vor` response: the data the
report string of lines 161-192 is rendered from. -/
structure VOROutput where
  display_city : String
  display_state : String
  venues : List VenueEntry
  venues_sorted : List VenueEntry
  top_venues : List VenueEntry
  most_recent_venue : String
deriving DecidableEq, Inhabited

def mkVOROutput (today : ℚ) (filtered : List EventRow) (dc ds : String) : VOROutput :=
  let venues := (venue_names filtered).map (fun v => buildEntry today dc ds v (groupOf filtered v))
  let vs := sort_desc_by_score venues
  { display_city := dc
    display_state := ds
    venues := venues
    venues_sorted := vs
    top_venues := vs.take 4
    most_recent_venue := ((sort_by_date_desc filtered).headD default).venue }

/-- The body of the `try` block of `run_vor` (lines 68-192). A venue whose
most recent `event_date` is NaT makes `strftime` at line 142 raise; the model
raises the same error before building any entry, which is observationally
equal because the whole request fails either way. -/
def runVorInner (df : List EventRow) (today : ℚ) (req : VORRequest) :
    Except PyExc VOROutput :=
  match TOPIC_MAP (pyUpper (pyStrip req.topic)) with
  | none => .error (.httpExc 400 "Invalid topic code. Use TIR, EP, or SS.")
  | some topic =>
    match vorSelect df req topic with
    | .error e => .error e
    | .ok (filtered, dc, ds) =>
      if filtered.isEmpty then .error (.httpExc 404 "No matching events found.")
      else if (venue_names filtered).any
          (fun v => ((sort_by_date_desc (groupOf filtered v)).headD default).event_date.isNone) then
        .error (.valueError "NaTType does not support strftime")
      else .ok (mkVOROutput today filtered dc ds)

/-- `run_vor` (lines 65-196): the `except Exception` handler at lines 194-196
catches every exception raised in the body, including the deliberately raised
`HTTPException`s, and re-raises HTTP 500 with `str(e)` embedded. -/
def run_vor (df : List EventRow) (today : ℚ) (req : VORRequest) :
    Except HttpError VOROutput :=
  match runVorInner df today req with
  | .ok o => .ok o
  | .error e => .error { status := 500, detail := "Server error: " ++ excStr e }

/-- The successful output of `run_vor`, defaulted; used to state concrete
facts about outputs. -/
def vorOut (df : List EventRow) (today : ℚ) (req : VORRequest) : VOROutput :=
  match run_vor df today req with
  | .ok o => o
  | .error _ => default

/-- The filtered candidate set `run_vor` aggregates (empty when selection
fails), for stating which events a query selects. -/
def vor_filtered (df : List EventRow) (req : VORRequest) : List EventRow :=
  match TOPIC_MAP (pyUpper (pyStrip req.topic)) with
  | none => []
  | some topic =>
    match vorSelect df req topic with
    | .ok (filtered, _, _) => filtered
    | .error _ => []

/-! ## mar.py -/

/-- One row of the dataframe passed to `generate_mar`, with the columns
`clean_columns` and the filter of lines 39-43 touch. The three `Option`
fields model columns that `clean_columns` writes: `none` means the column is
absent before cleaning. The `event_date` coercion of line 7 is not modelled
(it does not participate in any claim); the in-place writes of lines 8-10 are. -/
structure MarRow where
  city : String
  state : String
  topic : String
  attended_hh : PFloat
  gross_registrants : PFloat
  registration_max : PFloat
  market : Option String
  attendance_rate : Option PFloat
  fulfillment : Option PFloat
deriving DecidableEq

/-- `clean_columns` (src/mar.py lines 5-11): writes the `market`,
`attendance_rate` and `fulfillment` columns. -/
def clean_columns (df : List MarRow) : List MarRow :=
  df.map fun r =>
    { r with
      market := some (pyStrip r.city ++ ", " ++ pyStrip r.state)
      attendance_rate := some (r.attended_hh.div r.gross_registrants)
      fulfillment := some (r.attended_hh.div (r.registration_max.div (.fin (12/5)))) }

/-- The state of the caller-supplied dataframe object after `clean_columns`
returns: lines 6-10 assign columns of the argument itself (`df.columns = ...`,
`df[...] = ...` are in-place), so the caller's object holds the cleaned data. -/
def clean_columns_arg_after (df : List MarRow) : List MarRow := clean_columns df

/-- The state of the module-level dataframe after `run_vor` returns: line 98
(`filtered = filtered.copy()`) copies before any column assignment and every
other pandas operation used allocates a new frame, so the snapshot is
untouched. -/
def run_vor_arg_after (df : List EventRow) (today : ℚ) (req : VORRequest) :
    List EventRow := df

/-- The filter of `generate_mar` (src/mar.py lines 39-43) over the cleaned
frame: exact topic match, city compared lowercased then stripped, state
compared uppercased then stripped. -/
def mar_filtered (df : List MarRow) (topic city state : String) : List MarRow :=
  let cleaned := clean_columns df
  let topic_code := pyUpper topic
  cleaned.filter (fun r => r.topic == topic_code
    && pyStrip (pyLower r.city) == pyStrip (pyLower city)
    && pyStrip (pyUpper r.state) == pyStrip (pyUpper state))

/-! ## Definitions modelled from the spec

These model parts the spec describes but src/ does not implement; claims are
checked by comparing them with the code. -/

/-- Modelled from the spec: the recency weight step function of section 4.3,
used by claim C1 (1.25 up to 30 days, 1.00 up to 90 days, 0.80 after). -/
def recency_weight (age_days : ℤ) : ℚ :=
  if age_days ≤ 30 then 5/4 else if age_days ≤ 90 then 1 else 4/5

/-- Age in whole days of an event at evaluation time. -/
def age_days_of (today : ℚ) (d : ℤ) : ℤ := ⌊today - (d : ℚ)⌋

/-- Modelled from the spec: the per-event score claim C1 asserts, i.e. the
raw weighted combination of section 4.4 multiplied by the recency weight and
by SCALE = 40; defined only where the claim says the metrics are defined. -/
def spec_score_weighted (today : ℚ) (r : EventRow) : Option ℚ :=
  match r.event_date, r.gross_registrants, r.attended_hh, r.registration_max, r.fb_cpr with
  | some d, .fin g, .fin a, .fin m, .fin p =>
    if g = 0 ∨ a = 0 ∨ m = 0 ∨ p = 0 then none
    else
      let ar := a / g
      let ful := a / (m / (12/5))
      let cphh := p / ar
      some (((1 / cphh) * (1/2) + ful * (3/10) + ar * (1/5)) *
        recency_weight (age_days_of today d) * 40)
  | _, _, _, _, _ => none

/-- Modelled from the spec: the great-circle haversine distance of section
4.5 with Earth radius 3958.8 miles (the radius filter claim C8 asserts; no
such computation exists in src/). -/
noncomputable def spec_haversine_miles (lat1 lon1 lat2 lon2 : ℝ) : ℝ :=
  let rad : ℝ → ℝ := fun x => x * Real.pi / 180
  let a := Real.sin ((rad lat2 - rad lat1) / 2) ^ 2 +
    Real.cos (rad lat1) * Real.cos (rad lat2) * Real.sin ((rad lon2 - rad lon1) / 2) ^ 2
  2 * (39588 / 10) * Real.arcsin (Real.sqrt a)

/-! ## Concrete inputs for the evaluated theorems -/

/-- A CSV row with the given venue, zip, date, time and metric values; the
remaining text fields are fixed innocuous values. -/
def mkRow (venue zip : String) (date : Option ℤ) (time : String)
    (gross att rmax cprv : ℚ) : EventRow :=
  { venue := venue
    city := "Springdale"
    state := "OH"
    topic := "taxes_in_retirement_567"
    zip_code := zip
    event_date := date
    event_time := time
    gross_registrants := .fin gross
    attended_hh := .fin att
    registration_max := .fin rmax
    fb_cpr := .fin cprv
    venue_disclosure := "FALSE"
    image_allowed := "TRUE"
    latitude := none
    longitude := none }

def zipReq (z : String) : VORRequest :=
  { topic := "TIR", city := z, state := some "OH", miles := 6 }

def c1row : EventRow := mkRow "Oak Hall" "00001" (some 0) "18:00" 2 1 12 1

def c2df : List EventRow :=
  [mkRow "Oak Hall" "00001" (some 0) "18:00" 2 1 12 1,
   mkRow "Oak Hall" "00001" (some 1) "18:00" 2 1 12 1,
   mkRow "Oak Hall" "00001" (some 2) "18:00" 0 1 12 1]

def c3df : List EventRow := [mkRow "Oak Hall" "00002" (some 0) "18:00" 3 1 12 1]

def c3wdf : List EventRow :=
  [mkRow "Ash Room" "00002" (some 0) "18:00" 2 1 12 1,
   mkRow "Oak Hall" "00002" (some 1) "18:00" 3 1 12 1]

def c4df : List EventRow := [mkRow "Oak Hall" "00001" (some 0) "18:00" 2 1 12 1]

def c5df : List EventRow :=
  [{ mkRow "Oak Hall" "00004" (some 0) "18:00" 2 1 12 1 with city := "New Rome", state := "OH" }]

def c5req : VORRequest := { topic := "TIR", city := "Rome", state := some "OH", miles := 6 }

def c6df : List EventRow := [mkRow "Oak Hall" "00001" (some 0) "18:00" 2 1 12 1]

def c6req : VORRequest :=
  { topic := "taxes_in_retirement_567", city := "00001", state := some "OH", miles := 6 }

def c7df : List EventRow := [mkRow "Oak Hall" "00005" (some 6) "18:00" 2 1 12 1]

def c8row : EventRow :=
  { mkRow "Oak Hall" "00006" (some 0) "18:00" 2 1 12 1 with
    latitude := some 0, longitude := some 0 }

def c8df : List EventRow := [c8row]

def c9df : List MarRow :=
  [{ city := "Columbus ", state := " OH", topic := "TIR",
     attended_hh := .fin 1, gross_registrants := .fin 2, registration_max := .fin 12,
     market := none, attendance_rate := none, fulfillment := none }]

def c10df : List EventRow :=
  [mkRow "Oak Hall" "00007" (some 50) "18:00" 2 1 12 1]

/-- Date dominance used to state that the most recent event of a group has
the maximal date: `a` dominates `b` when every date `b` carries is bounded by
a date `a` carries. -/
def date_ge (a b : EventRow) : Prop :=
  ∀ x, b.event_date = some x → ∃ y, a.event_date = some y ∧ x ≤ y

deriving instance DecidableEq for Except

/-! ## Lemmas about the sorting and deduplication primitives -/

theorem mem_insertB {α : Type} {le : α → α → Bool} {x a : α} :
    ∀ {l : List α}, a ∈ insertB le x l ↔ a = x ∨ a ∈ l := by
  intro l
  induction l with
  | nil => simp [insertB]
  | cons y ys ih =>
    simp only [insertB]
    by_cases h : le x y = true
    · simp [h]
    · simp only [Bool.not_eq_true] at h
      simp [h, ih]
      tauto

theorem length_insertB {α : Type} {le : α → α → Bool} {x : α} :
    ∀ {l : List α}, (insertB le x l).length = l.length + 1 := by
  intro l
  induction l with
  | nil => simp [insertB]
  | cons y ys ih =>
    simp only [insertB]
    by_cases h : le x y = true
    · simp [h]
    · simp only [Bool.not_eq_true] at h
      simp [h, ih]

theorem mem_isortB {α : Type} {le : α → α → Bool} {a : α} :
    ∀ {l : List α}, a ∈ isortB le l ↔ a ∈ l := by
  intro l
  induction l with
  | nil => simp [isortB]
  | cons x xs ih => simp [isortB, mem_insertB, ih]

theorem length_isortB {α : Type} {le : α → α → Bool} :
    ∀ {l : List α}, (isortB le l).length = l.length := by
  intro l
  induction l with
  | nil => rfl
  | cons x xs ih => simp [isortB, length_insertB, ih]

theorem pairwise_insertB {α : Type} {le : α → α → Bool} {R S : α → α → Prop} {x : α} :
    ∀ {l : List α}, l.Pairwise R →
    (∀ b ∈ l, S x b) →
    (∀ b ∈ l, S x b → le x b = true → R x b) →
    (∀ b ∈ l, S x b → le x b = false → R b x) →
    (∀ b c, b ∈ l → c ∈ l → S x b → S x c → le x b = true → R b c → R x c) →
    (insertB le x l).Pairwise R := by
  intro l
  induction l with
  | nil => intro _ _ _ _ _; simp [insertB]
  | cons y ys ih =>
    intro hl hS h1 h2 h3
    rw [List.pairwise_cons] at hl
    obtain ⟨hy, hys⟩ := hl
    simp only [insertB]
    by_cases h : le x y = true
    · simp only [h, if_true]
      refine List.Pairwise.cons ?_ (List.Pairwise.cons hy hys)
      intro b hb
      rcases List.mem_cons.mp hb with hb1 | hb2
      · subst hb1
        exact h1 b (by simp) (hS b (by simp)) h
      · exact h3 y b (by simp) (by simp [hb2]) (hS y (by simp)) (hS b (by simp [hb2])) h
          (hy b hb2)
    · simp only [Bool.not_eq_true] at h
      simp only [h, Bool.false_eq_true, if_false]
      refine List.Pairwise.cons ?_ ?_
      · intro b hb
        rcases mem_insertB.mp hb with hb1 | hb2
        · subst hb1
          exact h2 y (by simp) (hS y (by simp)) h
        · exact hy b hb2
      · exact ih hys (fun b hb => hS b (by simp [hb]))
          (fun b hb hSb hle => h1 b (by simp [hb]) hSb hle)
          (fun b hb hSb hle => h2 b (by simp [hb]) hSb hle)
          (fun b c hb hc hSb hSc hle hR =>
            h3 b c (by simp [hb]) (by simp [hc]) hSb hSc hle hR)

theorem pairwise_isortB {α : Type} {le : α → α → Bool} {R S : α → α → Prop} :
    ∀ {l : List α}, l.Pairwise S →
    (∀ a b, a ∈ l → b ∈ l → S a b → le a b = true → R a b) →
    (∀ a b, a ∈ l → b ∈ l → S a b → le a b = false → R b a) →
    (∀ a b c, a ∈ l → b ∈ l → c ∈ l → S a b → S a c → le a b = true → R b c → R a c) →
    (isortB le l).Pairwise R := by
  intro l
  induction l with
  | nil => intro _ _ _ _; simp [isortB]
  | cons x xs ih =>
    intro hS h1 h2 h3
    rw [List.pairwise_cons] at hS
    obtain ⟨hx, hxs⟩ := hS
    refine pairwise_insertB
      (ih hxs
        (fun a b ha hb hs hle => h1 a b (by simp [ha]) (by simp [hb]) hs hle)
        (fun a b ha hb hs hle => h2 a b (by simp [ha]) (by simp [hb]) hs hle)
        (fun a b c ha hb hc hs1 hs2 hle hR =>
          h3 a b c (by simp [ha]) (by simp [hb]) (by simp [hc]) hs1 hs2 hle hR))
      (fun b hb => hx b (mem_isortB.mp hb))
      (fun b hb hs hle => h1 x b (by simp) (by simp [mem_isortB.mp hb]) hs hle)
      (fun b hb hs hle => h2 x b (by simp) (by simp [mem_isortB.mp hb]) hs hle)
      (fun b c hb hc hs1 hs2 hle hR =>
        h3 x b c (by simp) (by simp [mem_isortB.mp hb]) (by simp [mem_isortB.mp hc]) hs1 hs2 hle hR)

theorem pairwise_trivial {α : Type} : ∀ (l : List α), l.Pairwise (fun _ _ => True) := by
  intro l
  induction l with
  | nil => exact List.Pairwise.nil
  | cons x xs ih => exact List.Pairwise.cons (fun _ _ => trivial) ih

theorem mem_dedupAux {α : Type} [DecidableEq α] {a : α} :
    ∀ {l seen : List α}, a ∈ dedupAux seen l ↔ a ∈ l ∧ a ∉ seen := by
  intro l
  induction l with
  | nil => intro seen; simp [dedupAux]
  | cons x xs ih =>
    intro seen
    simp only [dedupAux]
    by_cases h : x ∈ seen
    · simp only [h, if_true, ih, List.mem_cons]
      constructor
      · rintro ⟨ha, hs⟩
        exact ⟨Or.inr ha, hs⟩
      · rintro ⟨ha | ha, hs⟩
        · subst ha; exact absurd h hs
        · exact ⟨ha, hs⟩
    · simp only [h, if_false, List.mem_cons, ih, List.mem_cons]
      constructor
      · rintro (rfl | ⟨ha, hs⟩)
        · exact ⟨Or.inl rfl, h⟩
        · exact ⟨Or.inr ha, fun hc => hs (Or.inr hc)⟩
      · rintro ⟨rfl | ha, hs⟩
        · exact Or.inl rfl
        · by_cases hax : a = x
          · exact Or.inl hax
          · exact Or.inr ⟨ha, fun hc => hc.elim hax hs⟩

theorem nodup_dedupAux {α : Type} [DecidableEq α] :
    ∀ {l seen : List α}, (dedupAux seen l).Nodup := by
  intro l
  induction l with
  | nil => intro seen; simp [dedupAux]
  | cons x xs ih =>
    intro seen
    simp only [dedupAux]
    by_cases h : x ∈ seen
    · simp only [h, if_true]; exact ih
    · simp only [h, if_false]
      refine List.Pairwise.cons (fun b hb hxb => ?_) ih
      rw [mem_dedupAux] at hb
      exact hb.2 (by simp [hxb])

theorem mem_dedupF {α : Type} [DecidableEq α] {a : α} {l : List α} :
    a ∈ dedupF l ↔ a ∈ l := by
  simp [dedupF, mem_dedupAux]

theorem nodup_dedupF {α : Type} [DecidableEq α] {l : List α} : (dedupF l).Nodup :=
  nodup_dedupAux

/-! ## Order properties of the string comparison and of pfLt -/

theorem charListLe_total : ∀ a b : List Char, charListLe a b = true ∨ charListLe b a = true := by
  intro a
  induction a with
  | nil => intro b; left; rfl
  | cons x xs ih =>
    intro b
    cases b with
    | nil => right; rfl
    | cons y ys =>
      simp only [charListLe]
      rcases lt_trichotomy x y with h | h | h
      · left; simp [h, asymm h]
      · subst h
        simp only [lt_irrefl, if_false]
        exact ih ys
      · right; simp [h, asymm h]

theorem charListLe_trans :
    ∀ a b c : List Char, charListLe a b = true → charListLe b c = true → charListLe a c = true := by
  intro a
  induction a with
  | nil => intro b c _ _; rfl
  | cons x xs ih =>
    intro b c hab hbc
    cases b with
    | nil => simp [charListLe] at hab
    | cons y ys =>
      cases c with
      | nil => simp [charListLe] at hbc
      | cons z zs =>
        simp only [charListLe] at hab hbc ⊢
        rcases lt_trichotomy x y with h1 | h1 | h1
        · rcases lt_trichotomy y z with h2 | h2 | h2
          · simp [lt_trans h1 h2]
          · subst h2; simp [h1]
          · simp [h1, asymm h1] at hab
            simp [h2, asymm h2] at hbc
        · subst h1
          rcases lt_trichotomy x z with h2 | h2 | h2
          · simp [h2]
          · subst h2
            simp only [lt_irrefl, if_false] at hab hbc ⊢
            exact ih _ _ hab hbc
          · simp [h2, asymm h2] at hbc
        · simp [h1, asymm h1] at hab

theorem charListLe_antisymm :
    ∀ a b : List Char, charListLe a b = true → charListLe b a = true → a = b := by
  intro a
  induction a with
  | nil =>
    intro b _ hba
    cases b with
    | nil => rfl
    | cons y ys => simp [charListLe] at hba
  | cons x xs ih =>
    intro b hab hba
    cases b with
    | nil => simp [charListLe] at hab
    | cons y ys =>
      simp only [charListLe] at hab hba
      rcases lt_trichotomy x y with h1 | h1 | h1
      · simp [h1, asymm h1] at hba
      · subst h1
        simp only [lt_irrefl, if_false] at hab hba
        rw [ih ys hab hba]
      · simp [h1, asymm h1] at hab

theorem strLe_total (a b : String) : strLe a b = true ∨ strLe b a = true :=
  charListLe_total a.data b.data

theorem strLe_trans {a b c : String} (hab : strLe a b = true) (hbc : strLe b c = true) :
    strLe a c = true :=
  charListLe_trans a.data b.data c.data hab hbc

theorem strLe_antisymm {a b : String} (hab : strLe a b = true) (hba : strLe b a = true) :
    a = b := by
  cases a with
  | mk da =>
    cases b with
    | mk db => exact congrArg String.mk (charListLe_antisymm da db hab hba)

theorem pfLt_irrefl (x : PFloat) : pfLt x x = false := by
  cases x <;> simp [pfLt]

theorem pfLt_asymm {x y : PFloat} (h : pfLt x y = true) : pfLt y x = false := by
  cases x <;> cases y <;> simp_all [pfLt] <;> exact le_of_lt h

theorem pfLt_trans {x y z : PFloat} (h1 : pfLt x y = true) (h2 : pfLt y z = true) :
    pfLt x z = true := by
  cases x <;> cases y <;> cases z <;> simp_all [pfLt] <;> exact lt_trans h1 h2

theorem pfLt_of_not_lt {x y : PFloat} (hx : x ≠ .nan) (hy : y ≠ .nan)
    (h : pfLt x y = false) : pfLt y x = true ∨ x = y := by
  cases x <;> cases y <;> simp_all [pfLt]
  rcases lt_or_eq_of_le h with h1 | h1
  · exact Or.inl h1
  · exact Or.inr h1.symm

/-! ## Inversion of a successful run_vor -/

theorem run_vor_ok_inner {df : List EventRow} {today : ℚ} {req : VORRequest} {out : VOROutput}
    (h : run_vor df today req = .ok out) : runVorInner df today req = .ok out := by
  unfold run_vor at h
  cases hi : runVorInner df today req with
  | ok o =>
    rw [hi] at h
    dsimp only at h
    injection h with h2
    rw [h2]
  | error e =>
    rw [hi] at h
    dsimp only at h
    exact Except.noConfusion h

theorem runVorInner_ok_structure {df : List EventRow} {today : ℚ} {req : VORRequest}
    {out : VOROutput} (h : runVorInner df today req = .ok out) :
    ∃ topic filtered dc ds,
      TOPIC_MAP (pyUpper (pyStrip req.topic)) = some topic ∧
      vorSelect df req topic = .ok (filtered, dc, ds) ∧
      filtered.isEmpty = false ∧
      (venue_names filtered).any
        (fun v => ((sort_by_date_desc (groupOf filtered v)).headD default).event_date.isNone)
        = false ∧
      out = mkVOROutput today filtered dc ds := by
  unfold runVorInner at h
  cases htm : TOPIC_MAP (pyUpper (pyStrip req.topic)) with
  | none => rw [htm] at h; exact Except.noConfusion h
  | some topic =>
    rw [htm] at h
    dsimp only at h
    cases hsel : vorSelect df req topic with
    | error e =>
      rw [hsel] at h
      dsimp only at h
      exact Except.noConfusion h
    | ok tpl =>
      obtain ⟨filtered, dc, ds⟩ := tpl
      rw [hsel] at h
      dsimp only at h
      by_cases hemp : filtered.isEmpty = true
      · rw [if_pos hemp] at h
        exact Except.noConfusion h
      · rw [if_neg hemp] at h
        by_cases hany : (venue_names filtered).any
            (fun v =>
              ((sort_by_date_desc (groupOf filtered v)).headD default).event_date.isNone) = true
        · rw [if_pos hany] at h
          exact Except.noConfusion h
        · rw [if_neg hany] at h
          refine ⟨topic, filtered, dc, ds, rfl, hsel, by simpa using hemp, by simpa using hany, ?_⟩
          cases h
          rfl

theorem vor_filtered_eq {df : List EventRow} {req : VORRequest} {topic dc ds : String}
    {filtered : List EventRow}
    (htm : TOPIC_MAP (pyUpper (pyStrip req.topic)) = some topic)
    (hsel : vorSelect df req topic = .ok (filtered, dc, ds)) :
    vor_filtered df req = filtered := by
  unfold vor_filtered
  simp [htm, hsel]

theorem run_vor_ok_structure {df : List EventRow} {today : ℚ} {req : VORRequest}
    {out : VOROutput} (h : run_vor df today req = .ok out) :
    out.venues = (venue_names (vor_filtered df req)).map
      (fun v => buildEntry today out.display_city out.display_state v
        (groupOf (vor_filtered df req) v)) ∧
    out.venues_sorted = sort_desc_by_score out.venues ∧
    out.top_venues = out.venues_sorted.take 4 ∧
    (∀ v ∈ venue_names (vor_filtered df req),
      ((sort_by_date_desc (groupOf (vor_filtered df req) v)).headD default).event_date ≠ none) := by
  obtain ⟨topic, filtered, dc, ds, htm, hsel, _, hany, hout⟩ :=
    runVorInner_ok_structure (run_vor_ok_inner h)
  have hf : vor_filtered df req = filtered := vor_filtered_eq htm hsel
  subst hout
  rw [hf]
  refine ⟨by simp [mkVOROutput], by simp [mkVOROutput], by simp [mkVOROutput], ?_⟩
  intro v hv hnone
  have h2 := List.any_eq_false.mp hany v hv
  refine h2 ?_
  show ((sort_by_date_desc (groupOf filtered v)).headD default).event_date.isNone = true
  rw [hnone]
  rfl

theorem mem_venues_of_ok {df : List EventRow} {today : ℚ} {req : VORRequest}
    {out : VOROutput} {e : VenueEntry}
    (h : run_vor df today req = .ok out) (he : e ∈ out.venues) :
    ∃ v, v ∈ venue_names (vor_filtered df req) ∧
      e = buildEntry today out.display_city out.display_state v
        (groupOf (vor_filtered df req) v) := by
  rw [(run_vor_ok_structure h).1] at he
  obtain ⟨v, hv, hve⟩ := List.mem_map.mp he
  exact ⟨v, hv, hve.symm⟩

/-! ## The head of the date-descending sort dominates every date in the group -/

theorem date_ge_refl (a : EventRow) : date_ge a a := fun x hx => ⟨x, hx, le_refl x⟩

theorem dateLeB_true_date_ge {a b : EventRow} (h : dateLeB a b = true) : date_ge a b := by
  unfold dateLeB at h
  intro z hz
  cases ha : a.event_date with
  | none =>
    rw [ha, hz] at h
    exact absurd h (by simp)
  | some x =>
    rw [ha, hz] at h
    exact ⟨x, rfl, by exact_mod_cast of_decide_eq_true h⟩

theorem dateLeB_false_date_ge {a b : EventRow} (h : dateLeB a b = false) : date_ge b a := by
  unfold dateLeB at h
  intro z hz
  cases hb : b.event_date with
  | none =>
    rw [hz, hb] at h
    exact absurd h (by simp)
  | some y =>
    rw [hz, hb] at h
    refine ⟨y, rfl, le_of_lt ?_⟩
    have := of_decide_eq_false h
    exact lt_of_not_le this

theorem date_ge_chain {a b c : EventRow} (hab : dateLeB a b = true) (hbc : date_ge b c) :
    date_ge a c := by
  intro z hz
  obtain ⟨y, hy, hzy⟩ := hbc z hz
  unfold dateLeB at hab
  cases ha : a.event_date with
  | none =>
    rw [ha, hy] at hab
    exact absurd hab (by simp)
  | some x =>
    rw [ha, hy] at hab
    exact ⟨x, rfl, le_trans hzy (by exact_mod_cast of_decide_eq_true hab)⟩

theorem sort_date_pairwise (g : List EventRow) : (sort_by_date_desc g).Pairwise date_ge := by
  refine pairwise_isortB (S := fun _ _ => True) (pairwise_trivial g) ?_ ?_ ?_
  · exact fun a b _ _ _ hle => dateLeB_true_date_ge hle
  · exact fun a b _ _ _ hle => dateLeB_false_date_ge hle
  · exact fun a b c _ _ _ _ _ hle hR => date_ge_chain hle hR

theorem sort_date_head_ge {g : List EventRow} {r : EventRow} (hr : r ∈ g) :
    date_ge ((sort_by_date_desc g).headD default) r := by
  cases hs : sort_by_date_desc g with
  | nil =>
    exfalso
    have : r ∈ sort_by_date_desc g := mem_isortB.mpr hr
    rw [hs] at this
    exact absurd this (List.not_mem_nil r)
  | cons hd tl =>
    have hmem : r ∈ hd :: tl := by
      rw [← hs]
      exact mem_isortB.mpr hr
    simp only [List.headD_cons]
    rcases List.mem_cons.mp hmem with h1 | h2
    · subst h1; exact date_ge_refl r
    · have hp := sort_date_pairwise g
      rw [hs] at hp
      exact (List.pairwise_cons.mp hp).1 r h2

/-! ## Claim theorems -/

/-- C1 (amended): the per-event score of `run_vor` equals
`((1/cost_per_verified_household)*0.5 + fulfillment_ratio*0.3 +
attendance_rate*0.2) * 40` for every row with defined metrics, with NO
recency-weight factor: lines 99-103 of src/main.py never consult the event
date, so the age-based multiplier (1.25/1.00/0.80) of the claim does not
exist in the code. -/
theorem c1_score_formula_amended (r : EventRow) (g a m p : ℚ)
    (hg : r.gross_registrants = .fin g) (ha : r.attended_hh = .fin a)
    (hm : r.registration_max = .fin m) (hp : r.fb_cpr = .fin p)
    (hg0 : g ≠ 0) (ha0 : a ≠ 0) (hm0 : m ≠ 0) (hp0 : p ≠ 0) :
    score_scaled r =
      .fin ((1 / (p / (a / g)) * (1 / 2) + a / (m / (12 / 5)) * (3 / 10) +
        a / g * (1 / 5)) * 40) := by
  have har : attendance_rate r = .fin (a / g) := by
    rw [attendance_rate, ha, hg]
    simp [PFloat.div, hg0]
  have hden : (12 / 5 : ℚ) ≠ 0 := by norm_num
  have hdiv1 : m / (12 / 5 : ℚ) ≠ 0 := div_ne_zero hm0 hden
  have hful : fulfillment_pct r = .fin (a / (m / (12 / 5))) := by
    rw [fulfillment_pct, ha, hm]
    simp [PFloat.div, hden, hdiv1]
  have hag : a / g ≠ 0 := div_ne_zero ha0 hg0
  have hcpa : cpa r = .fin (p / (a / g)) := by
    rw [cpa, hp, har]
    simp [PFloat.div, hag]
  have hpag : p / (a / g) ≠ 0 := div_ne_zero hp0 hag
  rw [score_scaled, score_raw, hcpa, har, hful]
  simp [PFloat.div, PFloat.mul, PFloat.add, hpag]

/-- Witness for C1 (amended), at the concrete row `c1row`
(2 registrants, 1 attended household, capacity 12, CPR 1). -/
theorem c1_score_formula_amended_witness :
    c1row.gross_registrants = .fin 2 ∧ c1row.attended_hh = .fin 1 ∧
    c1row.registration_max = .fin 12 ∧ c1row.fb_cpr = .fin 1 ∧
    score_scaled c1row =
      .fin ((1 / ((1 : ℚ) / (1 / 2)) * (1 / 2) + 1 / (12 / (12 / 5)) * (3 / 10) +
        1 / 2 * (1 / 5)) * 40) :=
  ⟨rfl, rfl, rfl, rfl,
    c1_score_formula_amended c1row 2 1 12 1 rfl rfl rfl rfl
      (by norm_num) (by norm_num) (by norm_num) (by norm_num)⟩

/-- C1 counterexample: for the row `c1row` (event 200 days old at evaluation
time 200, all metrics defined), the code computes score 82/5 = 16.4 while the
claimed recency-weighted formula (weight 0.80 for age over 90 days) gives
328/25 = 13.12, so the claimed equality fails. -/
theorem c1_counterexample :
    score_scaled c1row = .fin (82 / 5) ∧
    spec_score_weighted 200 c1row = some (328 / 25) ∧
    (82 / 5 : ℚ) ≠ 328 / 25 := by
  refine ⟨by with_unfolding_all decide, by with_unfolding_all decide, by norm_num⟩

/-- C4 (code bug evidence): a /vor query whose filtered candidate set is
empty is answered with HTTP 500 (`"Server error: 404: ..."`), not with the
structured 404: the `except Exception` handler of lines 194-196 catches the
`HTTPException(404)` of line 95 and re-raises it as a 500 server error.
Evaluated at topic TIR and ZIP 99999 against a dataset whose only event has
ZIP 00001. -/
theorem c4_empty_filter_returns_500 :
    run_vor c4df 0 (zipReq "99999") =
      .error { status := 500, detail := "Server error: 404: No matching events found." } := by
  with_unfolding_all decide

/-- C6 (amended): topic resolution accepts only the three short codes
(TIR/EP/SS, case-insensitively after trimming) and maps them to the long-form
keys; any other topic value - including the long-form identifiers themselves -
raises the 400 invalid-topic `HTTPException`, which the blanket handler of
lines 194-196 converts into an HTTP 500 response, so the caller does not
receive a distinct invalid-topic error. -/
theorem c6_topic_resolution_amended :
    (∀ (df : List EventRow) (today : ℚ) (req : VORRequest),
      TOPIC_MAP (pyUpper (pyStrip req.topic)) = none →
      run_vor df today req =
        .error { status := 500,
                 detail := "Server error: 400: Invalid topic code. Use TIR, EP, or SS." }) ∧
    TOPIC_MAP "TIR" = some "taxes_in_retirement_567" ∧
    TOPIC_MAP "EP" = some "estate_planning_567" ∧
    TOPIC_MAP "SS" = some "social_security_567" ∧
    TOPIC_MAP "TAXES_IN_RETIREMENT_567" = none := by
  refine ⟨?_, rfl, rfl, rfl, by with_unfolding_all decide⟩
  intro df today req h
  unfold run_vor runVorInner
  rw [h]
  rfl

/-- Witness for C6 (amended): the unknown topic code "RMD" is rejected with
the wrapped 500 response. -/
theorem c6_topic_resolution_amended_witness :
    TOPIC_MAP (pyUpper (pyStrip "RMD")) = none ∧
    run_vor [] 0 { topic := "RMD", city := "Delaware", state := some "OH", miles := 6 } =
      .error { status := 500,
               detail := "Server error: 400: Invalid topic code. Use TIR, EP, or SS." } :=
  ⟨by with_unfolding_all decide,
    c6_topic_resolution_amended.1 [] 0
      { topic := "RMD", city := "Delaware", state := some "OH", miles := 6 }
      (by with_unfolding_all decide)⟩

/-- C6 counterexample: the long-form topic identifier
"taxes_in_retirement_567", which the claim says is accepted and mapped to the
canonical key, is rejected - and not with a distinct invalid-topic error but
with a generic HTTP 500 - even though the dataset holds a matching event. -/
theorem c6_counterexample :
    run_vor c6df 0 c6req =
      .error { status := 500,
               detail := "Server error: 400: Invalid topic code. Use TIR, EP, or SS." } ∧
    (500 : ℕ) ≠ 400 := by
  refine ⟨by with_unfolding_all decide, by norm_num⟩

/-- C9 (amended): `run_vor` leaves the loaded dataset snapshot unchanged
(line 98 copies before the column assignments), but `generate_mar` mutates
the caller-supplied dataframe: `clean_columns` assigns columns of its
argument in place (src/mar.py lines 6-10), so after the call the caller's
object holds the cleaned data - in particular every row's `market` column has
been overwritten with `"city, state"`. -/
theorem c9_mutation_amended :
    (∀ (df : List EventRow) (today : ℚ) (req : VORRequest),
      run_vor_arg_after df today req = df) ∧
    (∀ df : List MarRow,
      (clean_columns_arg_after df).map (fun r => r.market) =
        df.map (fun r => some (pyStrip r.city ++ ", " ++ pyStrip r.state))) := by
  refine ⟨fun _ _ _ => rfl, fun df => ?_⟩
  unfold clean_columns_arg_after clean_columns
  rw [List.map_map]
  rfl

/-- C9 counterexample: a one-row dataframe without a `market` column is
changed by the in-place `clean_columns` of `generate_mar`, so the scoring
pass does not leave the caller-supplied source data unmutated. -/
theorem c9_counterexample : clean_columns_arg_after c9df ≠ c9df := by
  with_unfolding_all decide

/-! ## C8: the radius parameter and coordinates are never consulted -/

theorem get_similar_cities_coords (df : List EventRow) (la lo : EventRow → Option ℚ)
    (c st : String) :
    get_similar_cities (df.map (fun r => { r with latitude := la r, longitude := lo r })) c st =
      get_similar_cities df c st := by
  unfold get_similar_cities
  rw [List.filter_map, List.map_map]
  rfl

theorem vor_filtered_coords (df : List EventRow) (req : VORRequest)
    (la lo : EventRow → Option ℚ) :
    vor_filtered (df.map (fun r => { r with latitude := la r, longitude := lo r })) req =
      (vor_filtered df req).map (fun r => { r with latitude := la r, longitude := lo r }) := by
  unfold vor_filtered vorSelect
  cases TOPIC_MAP (pyUpper (pyStrip req.topic)) with
  | none => rfl
  | some topic =>
    dsimp only
    by_cases hz : (pyIsdigit req.city && req.city.length == 5) = true
    · rw [if_pos hz, if_pos hz]
      dsimp only
      rw [List.filter_map]
      rfl
    · rw [if_neg hz, if_neg hz]
      cases req.state with
      | none => rfl
      | some st =>
        dsimp only
        rw [get_similar_cities_coords]
        by_cases hs : (get_similar_cities df (pyStrip req.city) (pyUpper (pyStrip st))).isEmpty
            = true
        · rw [if_pos hs, if_pos hs]
          rfl
        · rw [if_neg hs, if_neg hs]
          dsimp only
          rw [List.filter_map]
          rfl

/-- C8 (amended): `run_vor` performs no radius filtering at all: its result
does not depend on the request's `miles` field (which no line of src/main.py
reads), and candidate selection does not depend on any coordinate column -
events are restricted only by topic together with the city/state (or ZIP)
match. The claim's haversine filter exists nowhere in the code. -/
theorem c8_radius_amended :
    (∀ (df : List EventRow) (today : ℚ) (req : VORRequest) (m1 m2 : ℚ),
      run_vor df today { req with miles := m1 } = run_vor df today { req with miles := m2 }) ∧
    (∀ (df : List EventRow) (req : VORRequest) (la lo : EventRow → Option ℚ),
      vor_filtered (df.map (fun r => { r with latitude := la r, longitude := lo r })) req =
        (vor_filtered df req).map (fun r => { r with latitude := la r, longitude := lo r })) :=
  ⟨fun df today req m1 m2 => by cases req; rfl, vor_filtered_coords⟩

/-- C8 counterexample: with the default radius of 6 miles, the event at
coordinates (0,0) stays in the candidate set although its haversine distance
to the spec-modelled resolved target point (0,180) is 3958.8*pi miles, far
beyond 6: the claimed "exactly those events within `miles` are retained"
fails because no distance computation exists in the code. -/
theorem c8_counterexample :
    vor_filtered c8df (zipReq "00006") = [c8row] ∧
    c8row.latitude = some 0 ∧ c8row.longitude = some 0 ∧
    (zipReq "00006").miles = 6 ∧
    (6 : ℝ) < spec_haversine_miles 0 0 0 180 := by
  refine ⟨by with_unfolding_all decide, rfl, rfl, rfl, ?_⟩
  unfold spec_haversine_miles
  have h0 : (0 : ℝ) * Real.pi / 180 = 0 := by ring
  have h180 : (180 : ℝ) * Real.pi / 180 = Real.pi := by ring
  dsimp only
  rw [h0, h180]
  have e1 : ((0 : ℝ) - 0) / 2 = 0 := by norm_num
  have e2 : (Real.pi - 0) / 2 = Real.pi / 2 := by ring
  rw [e1, e2, Real.sin_zero, Real.cos_zero, Real.sin_pi_div_two]
  have e3 : (0 : ℝ) ^ 2 + 1 * 1 * 1 ^ 2 = 1 := by norm_num
  rw [e3, Real.sqrt_one, Real.arcsin_one]
  nlinarith [Real.pi_gt_three]

/-- C2 (amended): rows with undefined derived metrics are NOT excluded from
aggregation: every venue entry counts all of the venue's filtered rows in
`num_events` (lines 99-103 add the derived columns without dropping any row,
and line 143 counts the whole group), and the reported score is the rounded
pandas mean of all the per-row scores - NaN rows are merely skipped by the
mean while infinite scores propagate into it. -/
theorem c2_rows_not_excluded_amended :
    ∀ (df : List EventRow) (today : ℚ) (req : VORRequest) (out : VOROutput),
    run_vor df today req = .ok out →
    ∀ e ∈ out.venues,
      e.num_events = ((vor_filtered df req).filter (fun r => r.venue == e.venue)).length ∧
      e.score = pyRound 2 (pmean
        (((vor_filtered df req).filter (fun r => r.venue == e.venue)).map score_scaled)) := by
  intro df today req out h e he
  obtain ⟨v, hv, rfl⟩ := mem_venues_of_ok h he
  exact ⟨rfl, rfl⟩

/-- Witness for C2 (amended) at the concrete dataset `c2df`: the sole venue's
`num_events` equals the count of all its filtered rows. -/
theorem c2_rows_not_excluded_amended_witness :
    run_vor c2df 100 (zipReq "00001") = .ok (vorOut c2df 100 (zipReq "00001")) ∧
    ((vorOut c2df 100 (zipReq "00001")).venues.headD default).num_events =
      ((vor_filtered c2df (zipReq "00001")).filter
        (fun r => r.venue == ((vorOut c2df 100 (zipReq "00001")).venues.headD default).venue)).length := by
  refine ⟨by with_unfolding_all decide, ?_⟩
  exact (c2_rows_not_excluded_amended c2df 100 (zipReq "00001") (vorOut c2df 100 (zipReq "00001"))
    (by with_unfolding_all decide)
    ((vorOut c2df 100 (zipReq "00001")).venues.headD default)
    (by with_unfolding_all decide)).1

/-- C2 counterexample: in `c2df` the venue has two rows with defined scores
and one row with `gross_registrants = 0` (undefined `attendance_rate`, score
+inf): the code reports `num_events = 3`, not the 2 the claim requires, and
the +inf score propagates into the venue's mean score. -/
theorem c2_counterexample :
    (vorOut c2df 100 (zipReq "00001")).venues.map (fun e => e.num_events) = [3] ∧
    ((vor_filtered c2df (zipReq "00001")).filter
      (fun r => (score_scaled r).isFinite)).length = 2 ∧
    (3 : ℕ) ≠ 2 ∧
    (vorOut c2df 100 (zipReq "00001")).venues.map (fun e => e.score) = [PFloat.pinf] := by
  refine ⟨by with_unfolding_all decide, by with_unfolding_all decide, by norm_num,
    by with_unfolding_all decide⟩

set_option maxHeartbeats 1600000 in
/-- C7 (amended): the recommender has no morning/evening hour categories, no
day-of-week counts and no Monday/Tuesday fallback: each venue entry reports
`best_times` - the venue's event times that are preferred (11:00, 11:30,
18:00, 18:30) plus non-preferred times whose mean CPA is below 70 or beats
the best preferred CPA (9999 when no preferred time occurs), sorted and
joined, or the text "Not enough data" when none qualify - and `best_days` -
up to two day names ranked by (mean attendance rate + mean fulfillment)/2 -
rendered as "best_times on best_days". -/
theorem c7_slot_recommender_amended :
    ∀ (df : List EventRow) (today : ℚ) (req : VORRequest) (out : VOROutput),
    run_vor df today req = .ok out →
    ∀ e ∈ out.venues,
      e.best_times = best_times (groupOf (vor_filtered df req) e.venue) ∧
      e.best_days = best_days (groupOf (vor_filtered df req) e.venue) ∧
      e.best_line = e.best_times ++ " on " ++ e.best_days := by
  intro df today req out h e he
  obtain ⟨v, hv, rfl⟩ := mem_venues_of_ok h he
  have hv2 : (buildEntry today out.display_city out.display_state v
      (groupOf (vor_filtered df req) v)).venue = v := rfl
  rw [hv2]
  generalize groupOf (vor_filtered df req) v = G
  exact ⟨rfl, rfl, rfl⟩

/-- Witness for C7 (amended) at the concrete dataset `c7df`. -/
theorem c7_slot_recommender_amended_witness :
    ((vorOut c7df 100 (zipReq "00005")).venues.headD default).best_line =
      ((vorOut c7df 100 (zipReq "00005")).venues.headD default).best_times ++ " on " ++
        ((vorOut c7df 100 (zipReq "00005")).venues.headD default).best_days :=
  (c7_slot_recommender_amended c7df 100 (zipReq "00005") (vorOut c7df 100 (zipReq "00005"))
    (by with_unfolding_all decide)
    ((vorOut c7df 100 (zipReq "00005")).venues.headD default)
    (by with_unfolding_all decide)).2.2

/-- C7 counterexample: the venue of `c7df` has one event (a Wednesday at
18:00) and no event at hour 11, yet the recommendation is
"18:00 on Wednesday": no fixed "Monday" morning fallback appears and the
output does not have the claimed per-category "<fixed-time> on <Day>" form. -/
theorem c7_counterexample :
    (vorOut c7df 100 (zipReq "00005")).venues.map (fun e => e.best_times) = ["18:00"] ∧
    (vorOut c7df 100 (zipReq "00005")).venues.map (fun e => e.best_days) = ["Wednesday"] ∧
    (vorOut c7df 100 (zipReq "00005")).venues.map (fun e => e.best_line) =
      ["18:00 on Wednesday"] ∧
    (vor_filtered c7df (zipReq "00005")).filter
      (fun r => r.event_time.data.take 2 = ['1', '1']) = [] ∧
    ("Wednesday" : String) ≠ "Monday" ∧
    ("18:00 on Wednesday" : String) ≠ "11:00 AM on Monday" := by
  refine ⟨by with_unfolding_all decide, by with_unfolding_all decide,
    by with_unfolding_all decide, by with_unfolding_all decide,
    by decide, by decide⟩

/-- Auxiliary: the `used_recently` text of a venue entry as a function of the
most recent event date. -/
theorem buildEntry_used_recently (today : ℚ) (dc ds v : String) (g : List EventRow) (d : ℤ)
    (hd : ((sort_by_date_desc g).headD default).event_date = some d) :
    (buildEntry today dc ds v g).used_recently =
      (if ⌊today - (d : ℚ)⌋ < 60 then "Used <60d" else "OK") := by
  unfold buildEntry
  dsimp only
  rw [hd]
  by_cases hP : ⌊today - (d : ℚ)⌋ < 60
  · simp [hP]
  · simp [hP]

/-- C10 (confirmed): every venue entry's `used_recently` field shows the
warning text exactly when the venue's most recent event date is strictly
fewer than 60 days before the evaluation instant, and the OK text otherwise:
`(today - recent).days < 60` with `.days` the floor of the day difference is
equivalent to `today - recent < 60` because `floor q < 60` iff `q < 60`. -/
theorem c10_used_recently_confirmed :
    ∀ (df : List EventRow) (today : ℚ) (req : VORRequest) (out : VOROutput),
    run_vor df today req = .ok out →
    ∀ e ∈ out.venues, ∃ d : ℤ,
      e.most_recent = some d ∧
      (∀ r ∈ (vor_filtered df req).filter (fun r => r.venue == e.venue),
        ∀ x, r.event_date = some x → x ≤ d) ∧
      (e.used_recently = "Used <60d" ↔ today - (d : ℚ) < 60) ∧
      (e.used_recently = "Used <60d" ∨ e.used_recently = "OK") := by
  intro df today req out h e he
  obtain ⟨v, hv, rfl⟩ := mem_venues_of_ok h he
  have hne := (run_vor_ok_structure h).2.2.2 v hv
  cases hd : ((sort_by_date_desc (groupOf (vor_filtered df req) v)).headD default).event_date with
  | none => exact absurd hd hne
  | some d =>
    have hur := buildEntry_used_recently today out.display_city out.display_state v
      (groupOf (vor_filtered df req) v) d hd
    have hfl : (⌊today - (d : ℚ)⌋ < 60) ↔ today - (d : ℚ) < 60 := by
      rw [Int.floor_lt]
      norm_num
    refine ⟨d, hd, ?_, ?_, ?_⟩
    · intro r hr x hx
      have hrg : r ∈ groupOf (vor_filtered df req) v := hr
      obtain ⟨y, hy, hxy⟩ := sort_date_head_ge hrg x hx
      rw [hd] at hy
      cases hy
      exact hxy
    · rw [hur]
      by_cases hP : ⌊today - (d : ℚ)⌋ < 60
      · rw [if_pos hP]
        exact ⟨fun _ => hfl.mp hP, fun _ => rfl⟩
      · rw [if_neg hP]
        constructor
        · intro hcon
          exact absurd hcon (by decide)
        · intro hlt
          exact absurd (hfl.mpr hlt) hP
    · rw [hur]
      by_cases hP : ⌊today - (d : ℚ)⌋ < 60
      · rw [if_pos hP]
        exact Or.inl rfl
      · rw [if_neg hP]
        exact Or.inr rfl

/-- Witness for C10 at the concrete dataset `c10df` (most recent event 50
days before the evaluation instant 100): the warning is shown. -/
theorem c10_used_recently_confirmed_witness :
    ((vorOut c10df 100 (zipReq "00007")).venues.headD default).most_recent = some 50 ∧
    ((vorOut c10df 100 (zipReq "00007")).venues.headD default).used_recently = "Used <60d" := by
  obtain ⟨d, hd, _, hiff, _⟩ :=
    c10_used_recently_confirmed c10df 100 (zipReq "00007") (vorOut c10df 100 (zipReq "00007"))
      (by with_unfolding_all decide)
      ((vorOut c10df 100 (zipReq "00007")).venues.headD default)
      (by with_unfolding_all decide)
  have hd50 : ((vorOut c10df 100 (zipReq "00007")).venues.headD default).most_recent = some 50 := by
    with_unfolding_all decide
  have : d = 50 := by
    rw [hd] at hd50
    exact Option.some.inj hd50
  subst this
  exact ⟨hd50, hiff.mpr (by norm_num)⟩

/-- C5 (amended): candidate selection in /vor is NOT an exact city
comparison: `get_similar_cities` keeps every city of the state whose
`token_set_ratio` similarity to the trimmed lowercased input reaches 75, and
the row filter then matches the city case-insensitively after trimming
against that fuzzy-expanded set (state exactly, case-insensitively after
trimming); a 5-digit city value switches to matching by zero-padded ZIP; only
`generate_mar` (src/mar.py) matches the city exactly case-insensitively. -/
theorem c5_matching_amended :
    (∀ (df : List EventRow) (city state c : String),
      c ∈ get_similar_cities df city state ↔
        ((∃ r ∈ df, pyUpper (pyStrip r.state) = state ∧ r.city = c) ∧
          75 ≤ tokenSetScore (pyLower (pyStrip city)) (pyLower (pyStrip c)))) ∧
    (∀ (df : List EventRow) (req : VORRequest) (st topic : String) (r : EventRow),
      (pyIsdigit req.city && req.city.length == 5) = false →
      req.state = some st →
      TOPIC_MAP (pyUpper (pyStrip req.topic)) = some topic →
      (get_similar_cities df (pyStrip req.city) (pyUpper (pyStrip st))).isEmpty = false →
      (r ∈ vor_filtered df req ↔ r ∈ df ∧ r.topic = topic ∧
        (∃ c ∈ get_similar_cities df (pyStrip req.city) (pyUpper (pyStrip st)),
          pyLower (pyStrip r.city) = pyLower (pyStrip c)) ∧
        pyUpper (pyStrip r.state) = pyUpper (pyStrip st))) ∧
    (∀ (df : List EventRow) (req : VORRequest) (topic : String) (r : EventRow),
      (pyIsdigit req.city && req.city.length == 5) = true →
      TOPIC_MAP (pyUpper (pyStrip req.topic)) = some topic →
      (r ∈ vor_filtered df req ↔ r ∈ df ∧ r.topic = topic ∧
        pyZfill 5 r.zip_code = pyZfill 5 (pyStrip req.city))) ∧
    (∀ (df : List MarRow) (t c s : String) (r : MarRow),
      r ∈ mar_filtered df t c s ↔ r ∈ clean_columns df ∧ r.topic = pyUpper t ∧
        pyStrip (pyLower r.city) = pyStrip (pyLower c) ∧
        pyStrip (pyUpper r.state) = pyStrip (pyUpper s)) := by
  refine ⟨?_, ?_, ?_, ?_⟩
  · intro df city state c
    unfold get_similar_cities
    simp only [mem_dedupF, List.mem_filter, List.mem_map, decide_eq_true_eq, beq_iff_eq]
    aesop
  · intro df req st topic r hz hst htm hsim
    unfold vor_filtered vorSelect
    rw [htm]
    dsimp only
    rw [if_neg (by simp [hz])]
    rw [hst]
    dsimp only
    rw [if_neg (by simp [hsim])]
    dsimp only
    simp only [List.mem_filter, Bool.and_eq_true, beq_iff_eq,
      List.contains_iff_exists_mem_beq, List.mem_map]
    aesop
  · intro df req topic r hz htm
    unfold vor_filtered vorSelect
    rw [htm]
    dsimp only
    rw [if_pos hz]
    dsimp only
    simp only [List.mem_filter, Bool.and_eq_true, beq_iff_eq]
  · intro df t c s r
    unfold mar_filtered
    simp only [List.mem_filter, Bool.and_eq_true, beq_iff_eq]
    tauto

/-- Witness for C5 (amended): the second conjunct applied at the concrete
query "Rome, OH" against the dataset whose only city is "New Rome". -/
theorem c5_matching_amended_witness :
    (pyIsdigit c5req.city && c5req.city.length == 5) = false ∧
    c5req.state = some "OH" ∧
    TOPIC_MAP (pyUpper (pyStrip c5req.topic)) = some "taxes_in_retirement_567" ∧
    (get_similar_cities c5df (pyStrip c5req.city) (pyUpper (pyStrip "OH"))).isEmpty = false ∧
    ((c5df.headD default) ∈ vor_filtered c5df c5req ↔
      (c5df.headD default) ∈ c5df ∧ (c5df.headD default).topic = "taxes_in_retirement_567" ∧
      (∃ c ∈ get_similar_cities c5df (pyStrip c5req.city) (pyUpper (pyStrip "OH")),
        pyLower (pyStrip (c5df.headD default).city) = pyLower (pyStrip c)) ∧
      pyUpper (pyStrip (c5df.headD default).state) = pyUpper (pyStrip "OH")) :=
  ⟨by with_unfolding_all decide, rfl, by with_unfolding_all decide,
    by with_unfolding_all decide,
    c5_matching_amended.2.1 c5df c5req "OH" "taxes_in_retirement_567" (c5df.headD default)
      (by with_unfolding_all decide) rfl (by with_unfolding_all decide)
      (by with_unfolding_all decide)⟩

/-- C5 counterexample: the query city "Rome" selects the event whose city is
"New Rome" (token_set_ratio 100 because the token set of one is a subset of
the other), although the two cities differ case-insensitively after trimming:
selection is fuzzy, not the claimed exact comparison. -/
theorem c5_counterexample :
    (c5df.headD default) ∈ vor_filtered c5df c5req ∧
    pyLower (pyStrip (c5df.headD default).city) ≠ pyLower (pyStrip c5req.city) ∧
    75 ≤ tokenSetScore (pyLower (pyStrip c5req.city))
      (pyLower (pyStrip (c5df.headD default).city)) := by
  refine ⟨by with_unfolding_all decide, by with_unfolding_all decide,
    by with_unfolding_all decide⟩

/-- Strings sorted by `sortStr` from a duplicate-free list are strictly
ascending in the code-point order. -/
theorem sortStr_pairwise_of_nodup {l : List String} (h : l.Nodup) :
    (sortStr l).Pairwise (fun a b => strLe a b = true ∧ a ≠ b) := by
  unfold sortStr
  refine pairwise_isortB (S := fun a b => a ≠ b) h ?_ ?_ ?_
  · intro a b _ _ hS hle
    exact ⟨hle, hS⟩
  · intro a b _ _ hS hle
    rcases strLe_total a b with ht | ht
    · simp [ht] at hle
    · exact ⟨ht, fun hba => hS hba.symm⟩
  · intro a b c _ _ _ hSab hSac hle hR
    exact ⟨strLe_trans hle hR.1, hSac⟩

/-- C3 (amended): the output venue list is sorted by the venue score
DESCENDING with stable ties resolved by venue name ascending, truncated to 4,
bounded by both 4 and the number of distinct venues in the filtered event
set; but the per-venue score is the unweighted mean of the per-event scores
ROUNDED to two decimals, not the exact mean - sorting and reporting both use
the rounded value. (Sortedness is stated for NaN-free scores, where the
comparison order is total.) -/
theorem c3_ranking_amended :
    ∀ (df : List EventRow) (today : ℚ) (req : VORRequest) (out : VOROutput),
    run_vor df today req = .ok out →
    (∀ e ∈ out.venues, e.score ≠ .nan) →
    out.top_venues = out.venues_sorted.take 4 ∧
    out.top_venues.length ≤ 4 ∧
    out.top_venues.length ≤ (dedupF ((vor_filtered df req).map (fun r => r.venue))).length ∧
    out.venues_sorted.Pairwise (fun a b =>
      pfLt a.score b.score = false ∧
      (a.score = b.score → strLe a.venue b.venue = true ∧ a.venue ≠ b.venue)) ∧
    (∀ e ∈ out.venues,
      e.score = pyRound 2 (pmean ((groupOf (vor_filtered df req) e.venue).map score_scaled))) := by
  intro df today req out h hfin
  obtain ⟨hvenues, hsorted, htop, _⟩ := run_vor_ok_structure h
  have hlen_sorted : out.venues_sorted.length = out.venues.length := by
    rw [hsorted]
    exact length_isortB
  have hlen_venues : out.venues.length =
      (dedupF ((vor_filtered df req).map (fun r => r.venue))).length := by
    rw [hvenues, List.length_map]
    unfold venue_names sortStr
    exact length_isortB
  refine ⟨htop, ?_, ?_, ?_, ?_⟩
  · rw [htop]
    exact List.length_take_le 4 _
  · rw [htop]
    calc (out.venues_sorted.take 4).length ≤ out.venues_sorted.length := by
          rw [List.length_take]
          exact min_le_right _ _
      _ = _ := by rw [hlen_sorted, hlen_venues]
  · have hnames : (venue_names (vor_filtered df req)).Pairwise
        (fun a b => strLe a b = true ∧ a ≠ b) :=
      sortStr_pairwise_of_nodup nodup_dedupF
    have hvS : out.venues.Pairwise
        (fun a b : VenueEntry => strLe a.venue b.venue = true ∧ a.venue ≠ b.venue) := by
      rw [hvenues, List.pairwise_map]
      exact hnames.imp (fun hab => hab)
    rw [hsorted]
    unfold sort_desc_by_score
    refine pairwise_isortB (S := fun a b : VenueEntry =>
        strLe a.venue b.venue = true ∧ a.venue ≠ b.venue) hvS ?_ ?_ ?_
    · intro a b _ _ hS hle
      exact ⟨by simpa using hle, fun _ => hS⟩
    · intro a b ha hb hS hle
      have hlt : pfLt a.score b.score = true := by simpa using hle
      refine ⟨pfLt_asymm hlt, fun heq => ?_⟩
      rw [heq, pfLt_irrefl] at hlt
      exact absurd hlt (by simp)
    · intro a b c ha hb hc hSab hSac hle hR
      have hab : pfLt a.score b.score = false := by simpa using hle
      refine ⟨?_, fun _ => hSac⟩
      by_contra hcon
      have hac : pfLt a.score c.score = true := by
        cases hx : pfLt a.score c.score
        · exact absurd hx hcon
        · rfl
      rcases pfLt_of_not_lt (hfin b hb) (hfin c hc) hR.1 with hcb | hbc
      · have h2 := pfLt_trans hac hcb
        rw [h2] at hab
        exact absurd hab (by simp)
      · rw [← hbc] at hac
        rw [hac] at hab
        exact absurd hab (by simp)
  · intro e he
    obtain ⟨v, hv, rfl⟩ := mem_venues_of_ok h he
    have hv2 : (buildEntry today out.display_city out.display_state v
        (groupOf (vor_filtered df req) v)).venue = v := rfl
    rw [hv2]
    generalize groupOf (vor_filtered df req) v = G
    rfl

/-- Witness for C3 (amended) at the two-venue dataset `c3wdf`. -/
theorem c3_ranking_amended_witness :
    (vorOut c3wdf 0 (zipReq "00002")).top_venues.length ≤ 4 :=
  (c3_ranking_amended c3wdf 0 (zipReq "00002") (vorOut c3wdf 0 (zipReq "00002"))
    (by with_unfolding_all decide) (by with_unfolding_all decide)).2.1

/-- C3 counterexample: for the one-event venue of `c3df` the exact unweighted
mean of the per-event scores is 176/15 = 11.7333..., but the reported (and
sorted-on) `mean_score` is the rounded 11.73, so the claim that `mean_score`
IS the unweighted arithmetic mean fails. -/
theorem c3_counterexample :
    (vorOut c3df 0 (zipReq "00002")).venues.map (fun e => e.score) = [.fin (1173 / 100)] ∧
    pmean ((vor_filtered c3df (zipReq "00002")).map score_scaled) = .fin (176 / 15) ∧
    PFloat.fin (1173 / 100) ≠ PFloat.fin (176 / 15) := by
  refine ⟨by with_unfolding_all decide, by with_unfolding_all decide,
    by with_unfolding_all decide⟩
